import Mathlib

set_option autoImplicit false

namespace FanucBackup

/-!
Shallow embedding of the FANUC robot backup tool (FanucBackup.py).

Python strings are modelled as Lean `String`, integers as `Nat`, the
filesystem and network as explicit oracle arguments, and the per-device
retry loop of `ftp_backup` as a recursive function over the list of results
the environment hands to each pass of the `while True:` loop.
-/

/-! ## Python string primitives -/

/-- Helper for `pySplitWs`: accumulates the current token (reversed) while
scanning the character list, emitting a token at each whitespace run. -/
def pySplitWsAux : List Char → List Char → List (List Char)
  | [], [] => []
  | [], cur => [cur.reverse]
  | c :: cs, cur =>
    if c.isWhitespace then
      if cur.isEmpty then pySplitWsAux cs [] else cur.reverse :: pySplitWsAux cs []
    else pySplitWsAux cs (c :: cur)

/-- Python `str.split()` with no argument: split on runs of whitespace,
discarding empty tokens (no leading/trailing empties). -/
def pySplitWs (s : String) : List String :=
  (pySplitWsAux s.toList []).map List.asString

/-- Python slicing `s[:n]` on a string: the first `n` characters. -/
def pyTake (n : Nat) (s : String) : String :=
  (s.toList.take n).asString

/-- Python `str.lower()` on a string. -/
def pyLower (s : String) : String :=
  (s.toList.map Char.toLower).asString

/-- Split a character list at every dot, keeping empty pieces (the semantics
of splitting on a single-character separator). -/
def splitDotAux : List Char → List Char → List (List Char)
  | [], cur => [cur.reverse]
  | c :: cs, cur => if c = '.' then cur.reverse :: splitDotAux cs [] else splitDotAux cs (c :: cur)

/-- The dot-separated pieces of a string. -/
def dotPieces (s : String) : List (List Char) :=
  splitDotAux s.toList []

/-! ## The address regex of is_online / validate_ip_list -/

/-- One group `\d{1,3}` of the address regex: one to three digits. -/
def isOctetGroup (t : List Char) : Bool :=
  decide (1 ≤ t.length) && decide (t.length ≤ 3) && t.all Char.isDigit

/-- Whole-string match of `\d{1,3}(\.\d{1,3}){3}`: four 1-to-3-digit groups
separated by single dots. -/
def dottedQuad (s : String) : Bool :=
  match dotPieces s with
  | [a, b, c, d] => isOctetGroup a && isOctetGroup b && isOctetGroup c && isOctetGroup d
  | _ => false

/-- Python `re.match(r"^\d{1,3}(\.\d{1,3}){3}$", s)` as a Bool: the anchor `$`
also matches just before a single trailing newline. -/
def reMatchQuad (s : String) : Bool :=
  dottedQuad s || ((s.toList.getLast? == some '\n') && dottedQuad (s.toList.dropLast).asString)

/-! ## is_online -/

/-- Observable behaviour of one call of `is_online`: the returned Bool and
how many network probes (ping subprocesses) were issued. -/
structure ProbeResult where
  result : Bool
  probesIssued : Nat
  deriving DecidableEq

/-- Shallow embedding of `is_online`: the regex gate, then a single ping whose
exit code is supplied by the environment oracle `pingExit`.  A failing or
timed-out ping is a nonzero exit code of the subprocess call. -/
def is_online (pingExit : String → Nat) (ip : String) : ProbeResult :=
  if reMatchQuad ip then ⟨pingExit ip == 0, 1⟩ else ⟨false, 0⟩

/-! ## validate_ip_list -/

/-- Token normalisation in `validate_ip_list`: a token without a dot is
prefixed with `192.168.1.`. -/
def fullIpOf (t : String) : String :=
  if t.toList.contains '.' then t else "192.168.1." ++ t

/-- Shallow embedding of `validate_ip_list`: the accumulating loop over the
whitespace-separated tokens of the input string. -/
def validate_ip_list (ipsStr : String) : List String :=
  (pySplitWs ipsStr).foldl
    (fun acc t =>
      let fullIp := fullIpOf t
      if reMatchQuad fullIp then acc ++ [fullIp] else acc)
    []

/-! ## The per-device worker ftp_backup

The `while True:` loop of `ftp_backup` is modelled as a recursion over the
list of results the environment produces for each pass of the try-block:
how far that pass got (directory created, files written, files fully
downloaded) and whether it raised, plus whether the best-effort cleanup of
the retry branch would itself fail. -/

/-- What one pass of the try-block of `ftp_backup` does, as decided by the
environment (network and remote device): whether `os.makedirs` was reached,
which file names were written into the destination subdirectory (a partially
written file counts), how many files finished downloading, and the raised
error text (`none` = the pass completed and appended Success). -/
structure Attempt where
  reachedMkdir : Bool
  written : List String
  filesDownloaded : Nat
  error : Option String
  cleanupFails : Bool
  deriving DecidableEq

/-- One record appended to the shared summary list. -/
structure Outcome where
  robot : String
  status : String
  error : Option String
  deriving DecidableEq

/-- Observable result of one `ftp_backup` call: the summary list after the
call, the contents of the destination subdirectory (`none` = it does not
exist), how many try-block passes ran, how many interactive prompts were
shown, and whether control flow actually left the routine (`false` = the
environment's attempt list was exhausted with the loop still running). -/
structure RunResult where
  summary : List Outcome
  disk : Option (List String)
  attemptsUsed : Nat
  promptsUsed : Nat
  returned : Bool
  deriving DecidableEq

/-- Destination subdirectory contents after writing `newFiles` on top of
`old` (a file of the same name is overwritten in place). -/
def mergeFiles (old newFiles : List String) : List String :=
  old ++ newFiles.filter (fun f => !(old.contains f))

/-- Destination subdirectory state after one pass of the try-block described
by `a`: `os.makedirs(..., exist_ok=True)` creates the directory if the pass
reached it, and the pass's writes land on top of what was there. -/
def diskAfter (a : Attempt) (disk : Option (List String)) : Option (List String) :=
  if a.reachedMkdir then some (mergeFiles (disk.getD []) a.written) else disk

/-- Bookkeeping for one more pass of the loop around a recursive call:
one more attempt, `pr` more prompts. -/
def bumpStep (pr : Nat) (r : RunResult) : RunResult :=
  ⟨r.summary, r.disk, r.attemptsUsed + 1, r.promptsUsed + pr, r.returned⟩

/-- Shallow embedding of the `while True:` loop of `ftp_backup` (lines
162-202).  `headless` is the global HEADLESS flag, `answers` the stream of
interactive answers, `triedOnce` the `tried_once` flag, `disk` the
destination subdirectory state, `summary` the shared summary list so far. -/
def runAttempts (headless : Bool) (rnum : String) :
    List String → Bool → Option (List String) → List Outcome → List Attempt → RunResult
  | _, _, disk, summary, [] => ⟨summary, disk, 0, 0, false⟩
  | answers, triedOnce, disk, summary, a :: rest =>
    let disk1 := diskAfter a disk
    match a.error with
    | none => ⟨summary ++ [⟨"R" ++ rnum, "Success", none⟩], disk1, 1, 0, true⟩
    | some e =>
      if 0 < a.filesDownloaded then
        let answer := if headless then "y" else pyLower (answers.headD "")
        let rem := if headless then answers else answers.tail
        let pr := if headless then 0 else 1
        if answer = "y" then
          let disk2 := if a.cleanupFails then disk1 else none
          bumpStep pr (runAttempts headless rnum rem triedOnce disk2 summary rest)
        else
          ⟨summary ++ [⟨"R" ++ rnum, "Partial", some "Connection dropped"⟩], disk1, 1, pr, true⟩
      else if triedOnce then
        ⟨summary ++ [⟨"R" ++ rnum, "Failed", some (pyTake 60 e)⟩], disk1, 1, 0, true⟩
      else
        bumpStep 0 (runAttempts headless rnum answers true disk1 summary rest)

/-- Shallow embedding of `ftp_backup` (lines 153-202): the `is_online` gate,
then the retry loop.  `online` is the result of the liveness probe for this
device's address. -/
def ftp_backup (headless : Bool) (online : Bool) (rnum : String) (answers : List String)
    (disk0 : Option (List String)) (summary : List Outcome) (attempts : List Attempt) :
    RunResult :=
  if online then runAttempts headless rnum answers false disk0 summary attempts
  else ⟨summary ++ [⟨"R" ++ rnum, "Failed", some "Offline or unreachable"⟩], disk0, 0, 0, true⟩

/-! ## Configuration entry and editing -/

/-- A saved job configuration (the dict built by `ask_config`). -/
structure Config where
  folder : String
  ips : List String
  nums : List String
  btype : String
  user : String
  password : String
  deriving DecidableEq

/-- Shallow embedding of the IPs/numbers entry loop of `ask_config` (lines
71-78): candidate input pairs are consumed until one yields matching counts;
`none` when the stream runs out with the loop still asking. -/
def askConfigIpNums : List (String × String) → Option (List String × List String)
  | [] => none
  | (ipsInput, numsInput) :: rest =>
    let ips := validate_ip_list ipsInput
    let nums := pySplitWs numsInput
    if ips.length = nums.length then some (ips, nums) else askConfigIpNums rest

/-- Shallow embedding of the IPs/numbers update portion of `edit_configs`
(lines 133-139): a blank input keeps the current value, a non-blank input
replaces the field; no count check is performed. -/
def editIpsNums (cfg : Config) (ipInput numInput : String) : Config :=
  let cfg1 := if ipInput = "" then cfg else { cfg with ips := validate_ip_list ipInput }
  if numInput = "" then cfg1 else { cfg1 with nums := pySplitWs numInput }

/-- The device/number pairs `main` dispatches one worker for (line 281):
Python's `zip` silently truncates to the shorter list. -/
def dispatchPairs (cfg : Config) : List (String × String) :=
  cfg.ips.zip cfg.nums

/-! ## Destination-root resolution in main -/

/-- Shallow embedding of the collision loop of `main` (lines 263-266): while
the candidate path exists, append `_<suffix>` to the CURRENT candidate and
increment the suffix.  `existsFn` is the filesystem oracle; `fuel` bounds the
recursion (the loop itself runs until a free path is found). -/
def resolveJobFolder (existsFn : String → Bool) : Nat → String → Nat → String
  | 0, path, _ => path
  | fuel + 1, path, suffix =>
    if existsFn path then
      resolveJobFolder existsFn fuel (path ++ "_" ++ toString suffix) (suffix + 1)
    else path

/-- Largest length of a string in the list (0 for the empty list). -/
def maxLen (l : List String) : Nat :=
  l.foldr (fun s m => max s.length m) 0

/-! ## Final cleanup in main -/

/-- State of the job root directory: whether it exists and which entries
(per-device subdirectories) it contains. -/
structure RootState where
  rootExists : Bool
  entries : List String
  deriving DecidableEq

/-- Shallow embedding of the end of `main` (lines 296-301): when every
summary entry is non-Success, `os.rmdir(job_folder)` is attempted; `rmdir`
succeeds only on an existing empty directory and any error is swallowed. -/
def finalCleanup (summary : List Outcome) (root : RootState) : RootState :=
  if summary.all (fun o => o.status != "Success") then
    if root.rootExists && root.entries.isEmpty then ⟨false, []⟩ else root
  else root

/-! ## Sample environments used in concrete runs -/

/-- A pass that downloads one file and then drops the connection. -/
def dropAttempt : Attempt :=
  ⟨true, ["f1"], 1, some "connection reset", false⟩

/-- A pass that completes: both files downloaded, Success appended. -/
def okAttempt : Attempt :=
  ⟨true, ["f1", "f2"], 2, none, false⟩

/-- A pass that creates the destination subdirectory, starts writing the
first file, and raises before any download completes: zero progress with a
partially written file left on disk. -/
def zeroResidueAttempt : Attempt :=
  ⟨true, ["a.part"], 0, some "connection reset", false⟩

/-! ## Step equations for the retry loop -/

lemma runAttempts_nil (headless : Bool) (rnum : String) (answers : List String)
    (triedOnce : Bool) (disk : Option (List String)) (summary : List Outcome) :
    runAttempts headless rnum answers triedOnce disk summary [] =
      ⟨summary, disk, 0, 0, false⟩ := rfl

lemma runAttempts_success (headless : Bool) (rnum : String) (answers : List String)
    (triedOnce : Bool) (disk : Option (List String)) (summary : List Outcome)
    (a : Attempt) (rest : List Attempt) (ha : a.error = none) :
    runAttempts headless rnum answers triedOnce disk summary (a :: rest) =
      ⟨summary ++ [⟨"R" ++ rnum, "Success", none⟩], diskAfter a disk, 1, 0, true⟩ := by
  simp only [runAttempts, ha]

lemma runAttempts_drop_retry (headless : Bool) (rnum : String) (answers : List String)
    (triedOnce : Bool) (disk : Option (List String)) (summary : List Outcome)
    (a : Attempt) (rest : List Attempt) (e : String) (ha : a.error = some e)
    (hd : 0 < a.filesDownloaded)
    (hy : (if headless then "y" else pyLower (answers.headD "")) = "y") :
    runAttempts headless rnum answers triedOnce disk summary (a :: rest) =
      bumpStep (if headless then 0 else 1)
        (runAttempts headless rnum (if headless then answers else answers.tail) triedOnce
          (if a.cleanupFails then diskAfter a disk else none) summary rest) := by
  simp only [runAttempts, ha, if_pos hd, hy, if_true]

lemma runAttempts_drop_accept (headless : Bool) (rnum : String) (answers : List String)
    (triedOnce : Bool) (disk : Option (List String)) (summary : List Outcome)
    (a : Attempt) (rest : List Attempt) (e : String) (ha : a.error = some e)
    (hd : 0 < a.filesDownloaded)
    (hy : ¬ (if headless then "y" else pyLower (answers.headD "")) = "y") :
    runAttempts headless rnum answers triedOnce disk summary (a :: rest) =
      ⟨summary ++ [⟨"R" ++ rnum, "Partial", some "Connection dropped"⟩], diskAfter a disk, 1,
        if headless then 0 else 1, true⟩ := by
  simp only [runAttempts, ha, if_pos hd, if_neg hy]

lemma runAttempts_zero_first (headless : Bool) (rnum : String) (answers : List String)
    (disk : Option (List String)) (summary : List Outcome)
    (a : Attempt) (rest : List Attempt) (e : String) (ha : a.error = some e)
    (hd : a.filesDownloaded = 0) :
    runAttempts headless rnum answers false disk summary (a :: rest) =
      bumpStep 0 (runAttempts headless rnum answers true (diskAfter a disk) summary rest) := by
  simp only [runAttempts, ha, hd]
  simp

lemma runAttempts_zero_second (headless : Bool) (rnum : String) (answers : List String)
    (disk : Option (List String)) (summary : List Outcome)
    (a : Attempt) (rest : List Attempt) (e : String) (ha : a.error = some e)
    (hd : a.filesDownloaded = 0) :
    runAttempts headless rnum answers true disk summary (a :: rest) =
      ⟨summary ++ [⟨"R" ++ rnum, "Failed", some (pyTake 60 e)⟩], diskAfter a disk, 1, 0,
        true⟩ := by
  simp only [runAttempts, ha, hd]
  simp

/-! ## One outcome per terminating run -/

lemma runAttempts_one_outcome (headless : Bool) (rnum : String) (attempts : List Attempt) :
    ∀ (answers : List String) (triedOnce : Bool) (disk : Option (List String))
      (summary : List Outcome),
      (runAttempts headless rnum answers triedOnce disk summary attempts).returned = true →
      ∃ o : Outcome,
        (runAttempts headless rnum answers triedOnce disk summary attempts).summary =
          summary ++ [o] ∧
        (o.status = "Success" ∨ o.status = "Partial" ∨ o.status = "Failed") := by
  induction attempts with
  | nil =>
    intro answers t disk summary h
    rw [runAttempts_nil] at h
    exact absurd h (by simp)
  | cons a rest ih =>
    intro answers t disk summary h
    cases ha : a.error with
    | none =>
      rw [runAttempts_success headless rnum answers t disk summary a rest ha]
      exact ⟨⟨"R" ++ rnum, "Success", none⟩, rfl, Or.inl rfl⟩
    | some e =>
      rcases Nat.eq_zero_or_pos a.filesDownloaded with hd | hd
      · cases t with
        | false =>
          rw [runAttempts_zero_first headless rnum answers disk summary a rest e ha hd] at h ⊢
          exact ih answers true (diskAfter a disk) summary h
        | true =>
          rw [runAttempts_zero_second headless rnum answers disk summary a rest e ha hd]
          exact ⟨⟨"R" ++ rnum, "Failed", some (pyTake 60 e)⟩, rfl, Or.inr (Or.inr rfl)⟩
      · by_cases hy : (if headless then "y" else pyLower (answers.headD "")) = "y"
        · rw [runAttempts_drop_retry headless rnum answers t disk summary a rest e ha hd hy]
            at h ⊢
          exact ih _ t _ summary h
        · rw [runAttempts_drop_accept headless rnum answers t disk summary a rest e ha hd hy]
          exact ⟨⟨"R" ++ rnum, "Partial", some "Connection dropped"⟩, rfl, Or.inr (Or.inl rfl)⟩

/-- C1: for every invocation of `ftp_backup` whose control flow leaves the
routine, exactly one Outcome record is appended to the shared summary list,
and its status is one of Success, Partial, Failed — never zero records,
never more than one, on every control-flow path out of the routine. -/
theorem c1_exactly_one_outcome (headless online : Bool) (rnum : String)
    (answers : List String) (disk0 : Option (List String)) (summary : List Outcome)
    (attempts : List Attempt)
    (hret : (ftp_backup headless online rnum answers disk0 summary attempts).returned = true) :
    ∃ o : Outcome,
      (ftp_backup headless online rnum answers disk0 summary attempts).summary =
        summary ++ [o] ∧
      (o.status = "Success" ∨ o.status = "Partial" ∨ o.status = "Failed") := by
  cases online with
  | false =>
    exact ⟨⟨"R" ++ rnum, "Failed", some "Offline or unreachable"⟩, rfl, Or.inr (Or.inr rfl)⟩
  | true =>
    exact runAttempts_one_outcome headless rnum attempts answers false disk0 summary hret

/-- Witness for C1: a concrete terminating run appends exactly one Outcome. -/
theorem c1_exactly_one_outcome_witness :
    (ftp_backup true true "1" [] none [] [okAttempt]).returned = true ∧
    ∃ o : Outcome,
      (ftp_backup true true "1" [] none [] [okAttempt]).summary = [] ++ [o] ∧
      (o.status = "Success" ∨ o.status = "Partial" ∨ o.status = "Failed") :=
  ⟨by decide, c1_exactly_one_outcome true true "1" [] none [] [okAttempt] (by decide)⟩

/-! ## Headless retries on mid-transfer drops -/

lemma runAttempts_replicate_drop :
    ∀ k : Nat,
      runAttempts true "1" [] false none [] (List.replicate k dropAttempt ++ [okAttempt]) =
        ⟨[⟨"R1", "Success", none⟩], some ["f1", "f2"], k + 1, 0, true⟩
  | 0 => by decide
  | k + 1 => by
    rw [List.replicate_succ, List.cons_append]
    have step : ∀ rest : List Attempt,
        runAttempts true "1" [] false none [] (dropAttempt :: rest) =
          bumpStep 0 (runAttempts true "1" [] false none [] rest) := fun rest => rfl
    rw [step, runAttempts_replicate_drop k]
    rfl

/-- C2 counterexample: in headless mode a device whose first pass retrieves
one file and drops, and whose automatic restart again retrieves one file and
drops, is retried a further time (a third pass runs and yields Success) —
so the restart is NOT limited to one for the mid-transfer-drop case. -/
theorem c2_counterexample :
    (ftp_backup true true "1" [] none [] [dropAttempt, dropAttempt, okAttempt]).attemptsUsed =
      3 ∧
    (ftp_backup true true "1" [] none [] [dropAttempt, dropAttempt, okAttempt]).summary =
      [⟨"R1", "Success", none⟩] := by
  decide

/-- C2 amended: in headless mode every mid-transfer drop with partial
progress triggers an automatic restart, with no bound: for every k, a run
whose first k passes each retrieve one file and drop is restarted k times
(k+1 passes run) before the completing pass yields Success, with no prompt
and no Partial outcome. -/
theorem c2_amended_unbounded_retry (k : Nat) :
    (ftp_backup true true "1" [] none []
        (List.replicate k dropAttempt ++ [okAttempt])).attemptsUsed = k + 1 ∧
    (ftp_backup true true "1" [] none []
        (List.replicate k dropAttempt ++ [okAttempt])).summary =
      [⟨"R1", "Success", none⟩] ∧
    (ftp_backup true true "1" [] none []
        (List.replicate k dropAttempt ++ [okAttempt])).promptsUsed = 0 := by
  have h : ftp_backup true true "1" [] none [] (List.replicate k dropAttempt ++ [okAttempt]) =
      runAttempts true "1" [] false none [] (List.replicate k dropAttempt ++ [okAttempt]) := rfl
  rw [h, runAttempts_replicate_drop k]
  exact ⟨rfl, rfl, rfl⟩

/-! ## Zero-progress failures -/

lemma pyTake_length_le (n : Nat) (s : String) : (pyTake n s).length ≤ n := by
  show (s.toList.take n).length ≤ n
  exact List.length_take_le n s.toList

/-- C5: a task whose first pass fails with zero files retrieved is retried
exactly once, silently (no prompt, whatever the mode and whatever answers
are queued); when the second pass also fails with zero progress the run
ends with a Failed Outcome whose diagnostic is the second error text
truncated to at most 60 characters. -/
theorem c5_zero_progress_retry (headless : Bool) (rnum : String) (answers : List String)
    (disk : Option (List String)) (summary : List Outcome)
    (m1 m2 : Bool) (w1 w2 : List String) (cf1 cf2 : Bool) (e1 e2 : String) :
    runAttempts headless rnum answers false disk summary
        [⟨m1, w1, 0, some e1, cf1⟩, ⟨m2, w2, 0, some e2, cf2⟩] =
      ⟨summary ++ [⟨"R" ++ rnum, "Failed", some (pyTake 60 e2)⟩],
        diskAfter ⟨m2, w2, 0, some e2, cf2⟩ (diskAfter ⟨m1, w1, 0, some e1, cf1⟩ disk),
        2, 0, true⟩ ∧
    (pyTake 60 e2).length ≤ 60 := by
  constructor
  · rw [runAttempts_zero_first headless rnum answers disk summary _ _ e1 rfl rfl,
      runAttempts_zero_second headless rnum answers _ summary _ _ e2 rfl rfl]
    rfl
  · exact pyTake_length_le 60 e2

/-! ## Cleanup on retry transitions -/

/-- C6 counterexample: a first pass that creates the destination
subdirectory, leaves a partially written file `a.part`, and fails with zero
progress triggers the silent retry WITHOUT any cleanup: the loop is still
running with `a.part` still on disk, and after a following successful pass
the destination holds `a.part` next to the files the new pass wrote. -/
theorem c6_counterexample :
    (runAttempts true "1" [] false none [] [zeroResidueAttempt]).returned = false ∧
    (runAttempts true "1" [] false none [] [zeroResidueAttempt]).disk = some ["a.part"] ∧
    (runAttempts true "1" [] false none [] [zeroResidueAttempt, okAttempt]).summary =
      [⟨"R1", "Success", none⟩] ∧
    (runAttempts true "1" [] false none [] [zeroResidueAttempt, okAttempt]).disk =
      some ["a.part", "f1", "f2"] := by
  decide

/-- C6 amended: only the mid-transfer-drop retry cleans up — it erases the
destination subdirectory's files and removes the subdirectory (state `none`)
before the next pass, and a failing cleanup is swallowed (the loop continues
either way, keeping the written state); the silent retry after a
zero-progress failure performs no cleanup at all, keeping whatever the
failed pass left on disk. -/
theorem c6_amended_cleanup (rnum : String) (answers : List String) (triedOnce : Bool)
    (disk : Option (List String)) (summary : List Outcome) (rest : List Attempt)
    (a : Attempt) (e : String) (ha : a.error = some e) :
    (0 < a.filesDownloaded →
      runAttempts true rnum answers triedOnce disk summary (a :: rest) =
        bumpStep 0 (runAttempts true rnum answers triedOnce
          (if a.cleanupFails then diskAfter a disk else none) summary rest)) ∧
    (a.filesDownloaded = 0 → triedOnce = false →
      runAttempts true rnum answers triedOnce disk summary (a :: rest) =
        bumpStep 0 (runAttempts true rnum answers true (diskAfter a disk) summary rest)) := by
  constructor
  · intro hd
    have h := runAttempts_drop_retry true rnum answers triedOnce disk summary a rest e ha hd rfl
    simpa using h
  · intro hd ht
    subst ht
    exact runAttempts_zero_first true rnum answers disk summary a rest e ha hd

/-- Witness for C6 amended: with cleanup succeeding, the pass after a
mid-transfer drop starts from a removed subdirectory; the zero-progress
silent retry keeps the written file. -/
theorem c6_amended_cleanup_witness :
    (runAttempts true "1" [] false none [] [dropAttempt, okAttempt] =
      bumpStep 0 (runAttempts true "1" [] false none [] [okAttempt])) ∧
    (runAttempts true "1" [] false none [] [zeroResidueAttempt, okAttempt] =
      bumpStep 0 (runAttempts true "1" [] true (some ["a.part"]) [] [okAttempt])) :=
  ⟨(c6_amended_cleanup "1" [] false none [] [okAttempt] dropAttempt "connection reset"
      rfl).1 (by decide),
    (c6_amended_cleanup "1" [] false none [] [okAttempt] zeroResidueAttempt "connection reset"
      rfl).2 rfl rfl⟩

/-! ## Offline devices -/

/-- C7 counterexample: the diagnostic recorded for a device whose liveness
probe is false is the string "Offline or unreachable" (capital O), which is
not the string "offline or unreachable" quoted by the claim. -/
theorem c7_counterexample :
    (ftp_backup true false "1" [] none [] []).summary =
      [⟨"R1", "Failed", some "Offline or unreachable"⟩] ∧
    ("Offline or unreachable" : String) ≠ "offline or unreachable" := by
  decide

/-- C7 amended: for every device whose liveness probe returns false, the
worker appends exactly one Failed Outcome with diagnostic
"Offline or unreachable" and never runs the FTP session: no try-block pass
executes and no prompt is shown, whatever the environment offers. -/
theorem c7_offline_no_session (headless : Bool) (rnum : String) (answers : List String)
    (disk0 : Option (List String)) (summary : List Outcome) (attempts : List Attempt) :
    ftp_backup headless false rnum answers disk0 summary attempts =
      ⟨summary ++ [⟨"R" ++ rnum, "Failed", some "Offline or unreachable"⟩], disk0, 0, 0,
        true⟩ := rfl

/-! ## Destination-root resolution -/

lemma resolveJobFolder_succ (existsFn : String → Bool) (fuel : Nat) (path : String)
    (suffix : Nat) :
    resolveJobFolder existsFn (fuel + 1) path suffix =
      if existsFn path then resolveJobFolder existsFn fuel (path ++ "_" ++ toString suffix)
        (suffix + 1)
      else path := rfl

lemma length_le_maxLen {l : List String} {s : String} (h : s ∈ l) : s.length ≤ maxLen l := by
  induction l with
  | nil => cases h
  | cons x xs ih =>
    rcases List.mem_cons.mp h with rfl | h2
    · exact Nat.le_max_left _ _
    · exact le_trans (ih h2) (Nat.le_max_right _ _)

lemma resolveJobFolder_not_mem (l : List String) :
    ∀ (fuel : Nat) (path : String) (suffix : Nat),
      maxLen l < path.length + fuel →
      l.contains (resolveJobFolder l.contains fuel path suffix) = false := by
  intro fuel
  induction fuel with
  | zero =>
    intro path suffix h
    show l.contains path = false
    cases hc : l.contains path with
    | false => rfl
    | true =>
      have hmem : path ∈ l := List.elem_iff.mp hc
      have := length_le_maxLen hmem
      omega
  | succ n ih =>
    intro path suffix h
    rw [resolveJobFolder_succ]
    by_cases hc : l.contains path = true
    · rw [if_pos hc]
      apply ih
      have hlen : path.length + 1 ≤ (path ++ "_" ++ toString suffix).length := by
        rw [String.length_append, String.length_append]
        have h1 : ("_" : String).length = 1 := rfl
        omega
      omega
    · rw [if_neg hc]
      simpa using hc

/-- C3 counterexample: with both `Job7_2024-01-01_0900` and
`Job7_2024-01-01_0900_1` already existing, the loop resolves to
`Job7_2024-01-01_0900_1_2` — the suffix is appended to the previous
candidate, not to the original root — and not to `Job7_2024-01-01_0900_2`
as the claim states. -/
theorem c3_counterexample :
    resolveJobFolder (["Job7_2024-01-01_0900", "Job7_2024-01-01_0900_1"].contains) 10
        "Job7_2024-01-01_0900" 1 = "Job7_2024-01-01_0900_1_2" ∧
    resolveJobFolder (["Job7_2024-01-01_0900", "Job7_2024-01-01_0900_1"].contains) 10
        "Job7_2024-01-01_0900" 1 ≠ "Job7_2024-01-01_0900_2" := by
  decide

/-- C3 amended: on collision the orchestrator appends `_1`, `_2`, … each to
the PREVIOUS candidate (so the candidates are `root_1`, `root_1_2`, …); when
`Job7_2024-01-01_0900` and `Job7_2024-01-01_0900_1` both exist the run
resolves to `Job7_2024-01-01_0900_1_2`; and no existing directory is ever
overwritten: with enough fuel for the loop to finish, the resolved path is
not in the existing set. -/
theorem c3_amended_cumulative_suffix :
    (resolveJobFolder (["Job7_2024-01-01_0900", "Job7_2024-01-01_0900_1"].contains) 10
        "Job7_2024-01-01_0900" 1 = "Job7_2024-01-01_0900_1_2") ∧
    ∀ (l : List String) (fuel : Nat) (path : String) (suffix : Nat),
      maxLen l < path.length + fuel →
      l.contains (resolveJobFolder l.contains fuel path suffix) = false := by
  exact ⟨by decide, fun l fuel path suffix h => resolveJobFolder_not_mem l fuel path suffix h⟩

/-- Witness for C3 amended: the resolved path of the concrete scenario is
not among the existing directories. -/
theorem c3_amended_cumulative_suffix_witness :
    (["Job7_2024-01-01_0900", "Job7_2024-01-01_0900_1"] : List String).contains
      (resolveJobFolder (["Job7_2024-01-01_0900", "Job7_2024-01-01_0900_1"].contains) 10
        "Job7_2024-01-01_0900" 1) = false :=
  c3_amended_cumulative_suffix.2 ["Job7_2024-01-01_0900", "Job7_2024-01-01_0900_1"] 10
    "Job7_2024-01-01_0900" 1 (by decide)

/-! ## Configuration validation -/

/-- C4 counterexample: editing a valid one-robot configuration with the IP
input "1 2" and a blank robot-number input yields a configuration with two
addresses and one identifier; it is not rejected, and dispatch silently
zips it down to one worker instead. -/
theorem c4_counterexample :
    (editIpsNums ⟨"/backups", ["192.168.1.5"], ["1"], "MD", "", ""⟩ "1 2" "").ips.length =
      2 ∧
    (editIpsNums ⟨"/backups", ["192.168.1.5"], ["1"], "MD", "", ""⟩ "1 2" "").nums.length =
      1 ∧
    (dispatchPairs (editIpsNums ⟨"/backups", ["192.168.1.5"], ["1"], "MD", "", ""⟩
      "1 2" "")).length = 1 := by
  decide

/-- C4 amended: configurations created through `ask_config` do satisfy the
invariant — whenever its entry loop accepts an IPs/numbers pair, the two
lists have equal length; configurations edited through `edit_configs` are
not re-validated and can reach dispatch with unequal counts. -/
theorem c4_amended_ask_config_validates (cands : List (String × String))
    (ips nums : List String) (h : askConfigIpNums cands = some (ips, nums)) :
    ips.length = nums.length := by
  induction cands with
  | nil => exact absurd h (by simp [askConfigIpNums])
  | cons c rest ih =>
    rw [askConfigIpNums] at h
    by_cases heq : (validate_ip_list c.1).length = (pySplitWs c.2).length
    · rw [if_pos heq] at h
      obtain ⟨h1, h2⟩ := Prod.mk.injEq .. ▸ Option.some.injEq .. ▸ h
      subst h1; subst h2
      exact heq
    · rw [if_neg heq] at h
      exact ih h

/-- Witness for C4 amended: a concrete accepted pair has equal counts. -/
theorem c4_amended_ask_config_validates_witness :
    (["192.168.1.5", "192.168.1.6"] : List String).length = (["1", "2"] : List String).length :=
  c4_amended_ask_config_validates [("5 6", "1 2")] ["192.168.1.5", "192.168.1.6"] ["1", "2"]
    (by decide)

/-! ## Final cleanup of the job root -/

/-- C8: after all workers are joined, the per-device entries of the job root
are never touched by the final cleanup; when some Outcome is Success the
root state is left entirely unchanged; and when every Outcome is
non-Success the root is deleted exactly when it is an existing empty
directory (a failing rmdir is swallowed, leaving the root as it was). -/
theorem c8_root_cleanup (summary : List Outcome) (root : RootState) :
    (finalCleanup summary root).entries = root.entries ∧
    ((∃ o ∈ summary, o.status = "Success") → finalCleanup summary root = root) ∧
    ((∀ o ∈ summary, o.status ≠ "Success") → root.rootExists = true →
      ((finalCleanup summary root).rootExists = false ↔ root.entries = [])) := by
  refine ⟨?_, ?_, ?_⟩
  · unfold finalCleanup
    by_cases hall : summary.all (fun o => o.status != "Success") = true
    · rw [if_pos hall]
      by_cases hroot : (root.rootExists && root.entries.isEmpty) = true
      · rw [if_pos hroot]
        have : root.entries = [] :=
          List.isEmpty_iff.mp (Bool.and_elim_right hroot)
        simp [this]
      · rw [if_neg hroot]
    · rw [if_neg hall]
  · intro ⟨o, ho, hs⟩
    unfold finalCleanup
    have hall : summary.all (fun o => o.status != "Success") = false := by
      apply Bool.eq_false_iff.mpr
      intro hall
      have := List.all_eq_true.mp hall o ho
      simp [hs] at this
    rw [hall]
    simp
  · intro hnone hroot
    have hall : summary.all (fun o => o.status != "Success") = true :=
      List.all_eq_true.mpr fun o ho => bne_iff_ne.mpr (hnone o ho)
    obtain ⟨re, ent⟩ := root
    have hre : re = true := hroot
    subst hre
    cases ent with
    | nil => simp [finalCleanup, hall]
    | cons x xs => simp [finalCleanup, hall]

/-- Witness for C8: one Success among the outcomes keeps a nonempty root
untouched; all-failed outcomes with an existing empty root delete it. -/
theorem c8_root_cleanup_witness :
    finalCleanup [⟨"R1", "Success", none⟩, ⟨"R2", "Failed", some "x"⟩] ⟨true, ["R1"]⟩ =
      ⟨true, ["R1"]⟩ ∧
    (finalCleanup [⟨"R1", "Failed", some "x"⟩] ⟨true, []⟩).rootExists = false :=
  ⟨(c8_root_cleanup [⟨"R1", "Success", none⟩, ⟨"R2", "Failed", some "x"⟩] ⟨true, ["R1"]⟩).2.1
      ⟨⟨"R1", "Success", none⟩, by simp, rfl⟩,
    ((c8_root_cleanup [⟨"R1", "Failed", some "x"⟩] ⟨true, []⟩).2.2 (by decide) rfl).mpr rfl⟩

/-! ## Liveness prober -/

/-- C9: `is_online` returns false with NO network probe whenever the address
fails the syntactic dotted-quad regex check, and returns false whenever the
ping probe fails or times out (nonzero subprocess exit code); the model is a
total function, mirroring that the code's probe path reports failure through
the exit code rather than an exception. -/
theorem c9_prober_safe (pingExit : String → Nat) (ip : String) :
    (reMatchQuad ip = false → is_online pingExit ip = ⟨false, 0⟩) ∧
    (pingExit ip ≠ 0 → (is_online pingExit ip).result = false) := by
  constructor
  · intro h
    simp [is_online, h]
  · intro h
    by_cases hm : reMatchQuad ip = true
    · simp [is_online, hm]
      omega
    · simp [is_online, hm]

/-- Witness for C9: a malformed address yields false with zero probes; a
well-formed address whose ping exits 1 yields false. -/
theorem c9_prober_safe_witness :
    is_online (fun _ => 1) "robot-7.local" = ⟨false, 0⟩ ∧
    (is_online (fun _ => 1) "192.168.1.20").result = false :=
  ⟨(c9_prober_safe (fun _ => 1) "robot-7.local").1 (by decide),
    (c9_prober_safe (fun _ => 1) "192.168.1.20").2 (by decide)⟩

/-! ## The IP-list parser -/

lemma validate_foldl (l : List String) :
    ∀ acc : List String,
      l.foldl (fun acc t =>
          let fullIp := fullIpOf t
          if reMatchQuad fullIp then acc ++ [fullIp] else acc) acc =
        acc ++ (l.map fullIpOf).filter reMatchQuad := by
  induction l with
  | nil => intro acc; simp
  | cons x xs ih =>
    intro acc
    rw [List.foldl_cons]
    by_cases hx : reMatchQuad (fullIpOf x) = true
    · simp only [hx, if_true]
      rw [ih (acc ++ [fullIpOf x])]
      simp [hx]
    · rw [Bool.not_eq_true] at hx
      simp only [hx, Bool.false_eq_true, if_false]
      rw [ih acc]
      simp [hx]

lemma pySplitWsAux_no_ws :
    ∀ (l cur : List Char), (∀ c ∈ cur, c.isWhitespace = false) →
      ∀ t ∈ pySplitWsAux l cur, ∀ c ∈ t, c.isWhitespace = false := by
  intro l
  induction l with
  | nil =>
    intro cur hcur t ht c hc
    cases cur with
    | nil => simp [pySplitWsAux] at ht
    | cons x xs =>
      have heq : t = (x :: xs).reverse := by simpa [pySplitWsAux] using ht
      subst heq
      exact hcur c (List.mem_reverse.mp hc)
  | cons ch cs ih =>
    intro cur hcur t ht c hc
    by_cases hws : ch.isWhitespace = true
    · simp only [pySplitWsAux, hws, if_true] at ht
      by_cases hemp : cur.isEmpty = true
      · rw [if_pos hemp] at ht
        exact ih [] (by simp) t ht c hc
      · rw [if_neg hemp] at ht
        rcases List.mem_cons.mp ht with rfl | ht2
        · exact hcur c (List.mem_reverse.mp hc)
        · exact ih [] (by simp) t ht2 c hc
    · rw [Bool.not_eq_true] at hws
      simp only [pySplitWsAux, hws, Bool.false_eq_true, if_false] at ht
      refine ih (ch :: cur) ?_ t ht c hc
      intro d hd
      rcases List.mem_cons.mp hd with rfl | hd2
      · exact hws
      · exact hcur d hd2

lemma pySplitWs_no_ws {s t : String} (ht : t ∈ pySplitWs s) :
    ∀ c ∈ t.toList, c.isWhitespace = false := by
  rcases List.mem_map.mp ht with ⟨tl, htl, rfl⟩
  intro c hc
  have hc2 : c ∈ tl := hc
  exact pySplitWsAux_no_ws s.toList [] (by simp) tl htl c hc2

lemma fullIpOf_getLast_ne_newline {t : String}
    (h : ∀ c ∈ t.toList, c.isWhitespace = false) :
    ¬ (fullIpOf t).toList.getLast? = some '\n' := by
  intro hlast
  unfold fullIpOf at hlast
  by_cases hc : t.toList.contains '.' = true
  · rw [if_pos hc] at hlast
    have hmem := List.mem_of_getLast?_eq_some hlast
    exact absurd (h _ hmem) (by decide)
  · rw [if_neg hc] at hlast
    have heq : ("192.168.1." ++ t).toList = "192.168.1.".toList ++ t.toList := rfl
    rw [heq] at hlast
    cases htl : t.toList with
    | nil =>
      rw [htl, List.append_nil] at hlast
      exact absurd hlast (by decide)
    | cons x xs =>
      rw [htl, List.getLast?_append_of_ne_nil _ (by simp)] at hlast
      have hmem := List.mem_of_getLast?_eq_some hlast
      exact absurd (h '\n' (htl ▸ hmem)) (by decide)

lemma reMatchQuad_eq_dottedQuad {u : String} (h : ¬ u.toList.getLast? = some '\n') :
    reMatchQuad u = dottedQuad u := by
  unfold reMatchQuad
  have hbeq : (u.toList.getLast? == some '\n') = false := beq_eq_false_iff_ne.mpr h
  rw [hbeq]
  simp

/-- C10: the IP-list parser keeps, for every whitespace-separated token of
the input, exactly the normalised form (the token itself, or prefixed with
`192.168.1.` when the token has no dot) of the tokens whose normalised form
matches the four-group dotted pattern; non-matching tokens are silently
dropped with no error channel, so the output is never longer than the token
list. -/
theorem c10_token_filter (s : String) :
    validate_ip_list s = ((pySplitWs s).map fullIpOf).filter dottedQuad ∧
    (validate_ip_list s).length ≤ (pySplitWs s).length := by
  have h1 : validate_ip_list s = ((pySplitWs s).map fullIpOf).filter reMatchQuad := by
    unfold validate_ip_list
    simpa using validate_foldl (pySplitWs s) []
  have h2 : ((pySplitWs s).map fullIpOf).filter reMatchQuad =
      ((pySplitWs s).map fullIpOf).filter dottedQuad := by
    apply List.filter_congr
    intro u hu
    rcases List.mem_map.mp hu with ⟨t, ht, rfl⟩
    exact reMatchQuad_eq_dottedQuad (fullIpOf_getLast_ne_newline (pySplitWs_no_ws ht))
  refine ⟨h1.trans h2, ?_⟩
  rw [h1]
  calc (((pySplitWs s).map fullIpOf).filter reMatchQuad).length ≤
      ((pySplitWs s).map fullIpOf).length := List.length_filter_le _ _
    _ = (pySplitWs s).length := by simp

end FanucBackup
